import Mathlib

/-!
Verification of the logger factory in `src/bodywork/logs.py`
(`bodywork_log_factory`), shallowly embedded in Lean 4.

The embedding models:
- severity values as in the Python `logging` module (`DEBUG` .. `CRITICAL`);
- the `log_level_mapping` dict built inside the factory;
- the process-wide logger registry of `logging.getLogger` as an association
  list from names to loggers (ancestor loggers are not modelled: the factory
  only ever touches the logger named `bodywork`, so `hasHandlers` is read on
  that logger);
- the environment `os.environ` as an association list of strings;
- the config-file collaborator `BodyworkConfig` (whose module is not part of
  the excerpt) as an abstract outcome: it either signals a
  `BodyworkConfigError` or yields the `logging.log_level` field;
- a raised Python exception as the `Except.error` branch of the result,
  paired with the process state as it stands when the exception is raised
  (side effects that already happened persist, as in Python).
-/

namespace BodyworkLogs

/-- Association-list lookup keyed by strings, mirroring Python dict /
`os.environ` lookups (first binding wins). -/
def alookup {α : Type} (k : String) : List (String × α) → Option α
  | [] => none
  | (k1, v) :: rest => if k = k1 then some v else alookup k rest

/-- Severity value of `logging.DEBUG`. -/
def DEBUG : Nat := 10

/-- Severity value of `logging.INFO`. -/
def INFO : Nat := 20

/-- Severity value of `logging.WARNING`. -/
def WARNING : Nat := 30

/-- Severity value of `logging.ERROR`. -/
def ERROR : Nat := 40

/-- Severity value of `logging.CRITICAL`. -/
def CRITICAL : Nat := 50

/-- The `log_level_mapping` dict built inside `bodywork_log_factory`
(`logs.py` lines 66-72). -/
def log_level_mapping : List (String × Nat) :=
  [("DEBUG", DEBUG), ("INFO", INFO), ("WARNING", WARNING),
   ("ERROR", ERROR), ("CRITICAL", CRITICAL)]

/-- Modelled from the spec: `bodywork/constants.py` is not part of the
excerpt. The spec and the factory docstring name a fixed-name environment
variable, `BODYWORK_LOG_LEVEL`. -/
def DEFAULT_LOG_LEVEL_ENV_VAR : String := "BODYWORK_LOG_LEVEL"

/-- Modelled from the spec: `bodywork/constants.py` is not part of the
excerpt. The spec fixes the built-in default severity name to `INFO`. -/
def DEFAULT_LOG_LEVEL : String := "INFO"

/-- Modelled from the spec: `bodywork/constants.py` is not part of the
excerpt. The spec only requires a fixed timestamp format string; its exact
value is immaterial to every claim, only its fixedness matters. -/
def LOG_TIME_FORMAT : String := "[%Y-%m-%d %H:%M:%S]"

/-- The highlighter passed to the handler: the factory passes
`NullHighlighter()`; Rich would otherwise use its default highlighter. -/
inductive Highlighter where
  | nullHighlighter
  | defaultHighlighter
deriving Repr, DecidableEq

/-- The presentation configuration of the `RichHandler` constructed at
`logs.py` lines 87-94 (the console sink object itself is an external
collaborator and is not modelled). -/
structure RichHandler where
  show_path : Bool
  highlighter : Highlighter
  omit_repeated_times : Bool
  rich_tracebacks : Bool
  log_time_format : String
deriving Repr, DecidableEq

/-- The one handler the factory ever constructs (`logs.py` lines 87-94). -/
def the_rich_handler : RichHandler :=
  { show_path := false
  , highlighter := Highlighter.nullHighlighter
  , omit_repeated_times := false
  , rich_tracebacks := true
  , log_time_format := LOG_TIME_FORMAT }

/-- A `logging.Logger`: name, severity threshold, attached handlers. -/
structure Logger where
  name : String
  level : Nat
  handlers : List RichHandler
deriving Repr, DecidableEq

/-- A fresh logger as `logging.getLogger` creates one: level `NOTSET` (0)
and no handlers. -/
def newLogger (name : String) : Logger :=
  { name := name, level := 0, handlers := [] }

/-- The process state the factory reads and mutates: the logger registry of
the `logging` module and the process environment `os.environ`. -/
structure ProcState where
  loggers : List (String × Logger)
  env : List (String × String)
deriving Repr, DecidableEq

/-- `logging.getLogger(name)`: return the registered logger of that name,
or create, register and return a fresh one. -/
def getLogger (name : String) (st : ProcState) : Logger × ProcState :=
  match alookup name st.loggers with
  | some l => (l, st)
  | none =>
      let l := newLogger name
      (l, { st with loggers := st.loggers ++ [(name, l)] })

/-- Write back a mutated logger into the registry under its name
(Python mutates the registered object in place). -/
def setLogger (name : String) (l : Logger) (st : ProcState) : ProcState :=
  { st with loggers := st.loggers.map (fun p => if p.1 = name then (name, l) else p) }

/-- The handlers currently attached to the `bodywork` logger (empty when no
such logger is registered yet). -/
def handlersOf (st : ProcState) : List RichHandler :=
  match alookup "bodywork" st.loggers with
  | some l => l.handlers
  | none => []

/-- The severity threshold of the `bodywork` logger (`NOTSET` = 0 when no
such logger is registered yet, as for a fresh Python logger). -/
def levelOf (st : ProcState) : Nat :=
  match alookup "bodywork" st.loggers with
  | some l => l.level
  | none => 0

/-- Modelled from the spec: the outcome of `BodyworkConfig(config_file_path)`
followed by reading `bodywork_config.logging.log_level`. The module
`bodywork/config.py` is not in the excerpt; per the spec, loading either
fails with a well-defined `BodyworkConfigError` (file absent, unreadable,
malformed, or lacking the field) or yields the logging-section severity
field, here the severity value handed to `setLevel`. -/
inductive ConfigOutcome where
  | failure
  | success (log_level : Nat)
deriving Repr, DecidableEq

/-- A Python exception escaping the factory. The only one the factory can
raise itself is the `KeyError` of a failed dict lookup. -/
inductive PyError where
  | keyError (key : String)
deriving Repr, DecidableEq

/-- The severity-resolution waterfall of `bodywork_log_factory`
(`logs.py` lines 74-85):
explicit argument (a failed mapping lookup raises `KeyError`), else the
config file, else the environment variable (a `KeyError` from the
environment lookup or from the mapping lookup falls through to the
default), else `log_level_mapping[DEFAULT_LOG_LEVEL]` (whose own lookup
is outside the `except KeyError` handler, hence fallible in principle). -/
def resolveLevel (log_level : Option String) (config : ConfigOutcome)
    (env : List (String × String)) : Except PyError Nat :=
  match log_level with
  | some name =>
      match alookup name log_level_mapping with
      | some v => Except.ok v
      | none => Except.error (PyError.keyError name)
  | none =>
      match config with
      | ConfigOutcome.success v => Except.ok v
      | ConfigOutcome.failure =>
          let fromDefault : Except PyError Nat :=
            match alookup DEFAULT_LOG_LEVEL log_level_mapping with
            | some v => Except.ok v
            | none => Except.error (PyError.keyError DEFAULT_LOG_LEVEL)
          match alookup DEFAULT_LOG_LEVEL_ENV_VAR env with
          | some s =>
              match alookup s log_level_mapping with
              | some v => Except.ok v
              | none => fromDefault
          | none => fromDefault

/-- `if not log.hasHandlers(): log.addHandler(RichHandler(...))`
(`logs.py` lines 86-95). -/
def addHandlerIfNone (l : Logger) : Logger :=
  if l.handlers.isEmpty then { l with handlers := l.handlers ++ [the_rich_handler] } else l

/-- `bodywork_log_factory(log_level, config_file_path)` (`logs.py` lines
50-96). The config-file path argument is represented by the outcome of the
config-load step (see `ConfigOutcome`). Returns the raised exception or the
returned logger, together with the process state after the call. -/
def bodywork_log_factory (log_level : Option String) (config : ConfigOutcome)
    (st : ProcState) : Except PyError Logger × ProcState :=
  let p := getLogger "bodywork" st
  match resolveLevel log_level config p.2.env with
  | Except.error e => (Except.error e, p.2)
  | Except.ok v =>
      let log2 := addHandlerIfNone { p.1 with level := v }
      (Except.ok log2, setLogger "bodywork" log2 p.2)

/-- Registry well-formedness: `logging.getLogger(name)` always hands out a
logger whose `name` attribute is `name`, so every registered logger carries
its registry key as its name. Reachable process states satisfy this. -/
def WF (st : ProcState) : Prop := ∀ p ∈ st.loggers, p.2.name = p.1

theorem alookup_append_of_none {α : Type} (k : String) (l1 l2 : List (String × α))
    (h : alookup k l1 = none) : alookup k (l1 ++ l2) = alookup k l2 := by
  induction l1 with
  | nil => simp
  | cons p rest ih =>
      cases p with
      | mk k1 v =>
          by_cases hk : k = k1
          · simp [alookup, hk] at h
          · simp only [List.cons_append, alookup, if_neg hk] at h ⊢
            exact ih h

theorem alookup_map_set {α : Type} (k : String) (w : α) (l : List (String × α))
    (h : ∃ v, alookup k l = some v) :
    alookup k (l.map (fun p => if p.1 = k then (k, w) else p)) = some w := by
  induction l with
  | nil => obtain ⟨v, hv⟩ := h; simp [alookup] at hv
  | cons p rest ih =>
      cases p with
      | mk k1 v1 =>
          by_cases hk : k = k1
          · subst hk
            simp only [List.map_cons, if_true, eq_self_iff_true]
            simp [alookup]
          · obtain ⟨v, hv⟩ := h
            simp only [alookup, if_neg hk] at hv
            simp only [List.map_cons]
            rw [if_neg (fun he => hk he.symm)]
            simp only [alookup, if_neg hk]
            exact ih ⟨v, hv⟩

theorem alookup_mem {α : Type} (k : String) (v : α) (l : List (String × α))
    (h : alookup k l = some v) : (k, v) ∈ l := by
  induction l with
  | nil => simp [alookup] at h
  | cons p rest ih =>
      cases p with
      | mk k1 v1 =>
          by_cases hk : k = k1
          · subst hk
            simp only [alookup, if_true, eq_self_iff_true] at h
            obtain rfl : v1 = v := Option.some.inj h
            exact List.mem_cons_self _ _
          · simp only [alookup, if_neg hk] at h
            exact List.mem_cons_of_mem _ (ih h)

theorem getLogger_env (n : String) (st : ProcState) : (getLogger n st).2.env = st.env := by
  unfold getLogger
  cases h : alookup n st.loggers <;> simp

theorem getLogger_lookup (n : String) (st : ProcState) :
    alookup n (getLogger n st).2.loggers = some (getLogger n st).1 := by
  unfold getLogger
  cases h : alookup n st.loggers with
  | some l => simpa using h
  | none => simp [alookup_append_of_none _ _ _ h, alookup]

theorem getLogger_handlers (st : ProcState) :
    (getLogger "bodywork" st).1.handlers = handlersOf st := by
  unfold getLogger handlersOf
  cases h : alookup "bodywork" st.loggers <;> simp [newLogger]

theorem getLogger_level (st : ProcState) :
    (getLogger "bodywork" st).1.level = levelOf st := by
  unfold getLogger levelOf
  cases h : alookup "bodywork" st.loggers <;> simp [newLogger]

theorem getLogger_name (st : ProcState) (hwf : WF st) :
    (getLogger "bodywork" st).1.name = "bodywork" := by
  unfold getLogger
  cases h : alookup "bodywork" st.loggers with
  | some l => simpa using hwf _ (alookup_mem _ _ _ h)
  | none => simp [newLogger]

theorem handlersOf_getLogger (st : ProcState) :
    handlersOf (getLogger "bodywork" st).2 = handlersOf st := by
  unfold getLogger handlersOf
  cases h : alookup "bodywork" st.loggers with
  | some l => simp [h]
  | none => simp [h, alookup_append_of_none _ _ _ h, alookup, newLogger]

theorem levelOf_getLogger (st : ProcState) :
    levelOf (getLogger "bodywork" st).2 = levelOf st := by
  unfold getLogger levelOf
  cases h : alookup "bodywork" st.loggers with
  | some l => simp [h]
  | none => simp [h, alookup_append_of_none _ _ _ h, alookup, newLogger]

theorem alookup_setLogger (l : Logger) (st : ProcState)
    (h : ∃ x, alookup "bodywork" st.loggers = some x) :
    alookup "bodywork" (setLogger "bodywork" l st).loggers = some l := by
  unfold setLogger
  exact alookup_map_set _ _ _ h

theorem handlersOf_setLogger (l : Logger) (st : ProcState)
    (h : ∃ x, alookup "bodywork" st.loggers = some x) :
    handlersOf (setLogger "bodywork" l st) = l.handlers := by
  unfold handlersOf
  rw [alookup_setLogger l st h]

theorem levelOf_setLogger (l : Logger) (st : ProcState)
    (h : ∃ x, alookup "bodywork" st.loggers = some x) :
    levelOf (setLogger "bodywork" l st) = l.level := by
  unfold levelOf
  rw [alookup_setLogger l st h]

theorem addHandlerIfNone_level (l : Logger) : (addHandlerIfNone l).level = l.level := by
  unfold addHandlerIfNone
  split <;> rfl

theorem addHandlerIfNone_name (l : Logger) : (addHandlerIfNone l).name = l.name := by
  unfold addHandlerIfNone
  split <;> rfl

theorem addHandlerIfNone_handlers (l : Logger) :
    (addHandlerIfNone l).handlers =
      if l.handlers = [] then [the_rich_handler] else l.handlers := by
  unfold addHandlerIfNone
  cases hl : l.handlers <;> simp [hl]

/-- The mapping lookup of the built-in default name succeeds with `INFO`. -/
theorem alookup_default : alookup DEFAULT_LOG_LEVEL log_level_mapping = some INFO := by
  decide

/-- The logger value a successful factory call returns: the registered
logger, threshold set to the resolved value, handler attached if none was. -/
def factoryResultLogger (st : ProcState) (v : Nat) : Logger :=
  addHandlerIfNone { (getLogger "bodywork" st).1 with level := v }

/-- The process state after a successful factory call. -/
def factoryResultState (st : ProcState) (v : Nat) : ProcState :=
  setLogger "bodywork" (factoryResultLogger st v) (getLogger "bodywork" st).2

theorem factory_ok_of_resolve (a : Option String) (c : ConfigOutcome) (st : ProcState)
    (v : Nat) (h : resolveLevel a c st.env = Except.ok v) :
    bodywork_log_factory a c st =
      (Except.ok (factoryResultLogger st v), factoryResultState st v) := by
  have h' : resolveLevel a c (getLogger "bodywork" st).2.env = Except.ok v := by
    rw [getLogger_env]; exact h
  simp [bodywork_log_factory, h', factoryResultLogger, factoryResultState]

theorem level_factoryResultLogger (st : ProcState) (v : Nat) :
    (factoryResultLogger st v).level = v := by
  unfold factoryResultLogger
  rw [addHandlerIfNone_level]

theorem levelOf_factoryResultState (st : ProcState) (v : Nat) :
    levelOf (factoryResultState st v) = v := by
  unfold factoryResultState
  rw [levelOf_setLogger _ _ ⟨_, getLogger_lookup "bodywork" st⟩]
  exact level_factoryResultLogger st v

theorem resolveLevel_none_ok (c : ConfigOutcome) (env : List (String × String)) :
    ∃ v, resolveLevel none c env = Except.ok v := by
  cases c with
  | success v => exact ⟨v, rfl⟩
  | failure =>
      cases he : alookup DEFAULT_LOG_LEVEL_ENV_VAR env with
      | none => exact ⟨INFO, by simp [resolveLevel, he, alookup_default]⟩
      | some s =>
          cases hm : alookup s log_level_mapping with
          | none => exact ⟨INFO, by simp [resolveLevel, he, hm, alookup_default]⟩
          | some v => exact ⟨v, by simp [resolveLevel, he, hm]⟩

theorem resolveLevel_env_valid (env : List (String × String)) (s : String) (v : Nat)
    (he : alookup DEFAULT_LOG_LEVEL_ENV_VAR env = some s)
    (hm : alookup s log_level_mapping = some v) :
    resolveLevel none ConfigOutcome.failure env = Except.ok v := by
  simp [resolveLevel, he, hm]

theorem resolveLevel_env_unset (env : List (String × String))
    (he : alookup DEFAULT_LOG_LEVEL_ENV_VAR env = none) :
    resolveLevel none ConfigOutcome.failure env = Except.ok INFO := by
  simp [resolveLevel, he, alookup_default]

theorem resolveLevel_env_invalid (env : List (String × String)) (s : String)
    (he : alookup DEFAULT_LOG_LEVEL_ENV_VAR env = some s)
    (hm : alookup s log_level_mapping = none) :
    resolveLevel none ConfigOutcome.failure env = Except.ok INFO := by
  simp [resolveLevel, he, hm, alookup_default]

/-- A fresh process: no logger registered yet, environment variable unset. -/
def st0 : ProcState := { loggers := [], env := [] }

/-- A fresh process whose environment sets `BODYWORK_LOG_LEVEL=DEBUG`. -/
def stEnvDebug : ProcState :=
  { loggers := [], env := [("BODYWORK_LOG_LEVEL", "DEBUG")] }

/-- C1: for every one of the five valid severity names passed as the explicit
`log_level` argument, the factory succeeds and the resolved severity
threshold (on the returned logger and on the registered `bodywork` logger)
equals that name's severity value, for every config-file outcome and every
process state (environment included): neither source is consulted. -/
theorem explicit_level_sets_threshold (name : String) (v : Nat)
    (hmap : alookup name log_level_mapping = some v)
    (c : ConfigOutcome) (st : ProcState) :
    ∃ l st', bodywork_log_factory (some name) c st = (Except.ok l, st') ∧
      l.level = v ∧ levelOf st' = v := by
  refine ⟨factoryResultLogger st v, factoryResultState st v, ?_, ?_, ?_⟩
  · exact factory_ok_of_resolve _ _ _ _ (by simp [resolveLevel, hmap])
  · exact level_factoryResultLogger st v
  · exact levelOf_factoryResultState st v

theorem explicit_level_sets_threshold_witness :
    ∃ l st', bodywork_log_factory (some "ERROR") ConfigOutcome.failure stEnvDebug
        = (Except.ok l, st') ∧ l.level = 40 ∧ levelOf st' = 40 :=
  explicit_level_sets_threshold "ERROR" 40 (by decide) ConfigOutcome.failure stEnvDebug

/-- C2: an explicit `log_level` that is not one of the five known severity
names makes the factory raise the `KeyError` of the failed mapping lookup to
the caller, for every config-file outcome and every process state: it never
falls back to the config file, the environment variable, or the default. -/
theorem invalid_explicit_level_raises (name : String)
    (hmap : alookup name log_level_mapping = none)
    (c : ConfigOutcome) (st : ProcState) :
    (bodywork_log_factory (some name) c st).1
      = Except.error (PyError.keyError name) := by
  have hres : resolveLevel (some name) c (getLogger "bodywork" st).2.env
      = Except.error (PyError.keyError name) := by
    simp [resolveLevel, hmap]
  simp [bodywork_log_factory, hres]

theorem invalid_explicit_level_raises_witness :
    (bodywork_log_factory (some "debug") ConfigOutcome.failure stEnvDebug).1
      = Except.error (PyError.keyError "debug") :=
  invalid_explicit_level_raises "debug" (by decide) ConfigOutcome.failure stEnvDebug

/-- C3: with no explicit `log_level`, when the config file loads successfully
and yields a logging severity field, the factory succeeds and the resolved
threshold is the config-file value, for every process state: the environment
variable (part of the state) is never consulted. -/
theorem config_level_takes_precedence (v : Nat) (st : ProcState) :
    ∃ l st', bodywork_log_factory none (ConfigOutcome.success v) st
        = (Except.ok l, st') ∧ l.level = v ∧ levelOf st' = v := by
  refine ⟨factoryResultLogger st v, factoryResultState st v, ?_, ?_, ?_⟩
  · exact factory_ok_of_resolve _ _ _ _ rfl
  · exact level_factoryResultLogger st v
  · exact levelOf_factoryResultState st v

/-- C4: with no explicit `log_level` and a failing config-file step, when the
environment variable is set to a recognized severity name, the factory
succeeds and the resolved threshold equals that value. -/
theorem env_level_used_when_config_fails (st : ProcState) (s : String) (v : Nat)
    (he : alookup DEFAULT_LOG_LEVEL_ENV_VAR st.env = some s)
    (hm : alookup s log_level_mapping = some v) :
    ∃ l st', bodywork_log_factory none ConfigOutcome.failure st
        = (Except.ok l, st') ∧ l.level = v ∧ levelOf st' = v := by
  refine ⟨factoryResultLogger st v, factoryResultState st v, ?_, ?_, ?_⟩
  · exact factory_ok_of_resolve _ _ _ _ (resolveLevel_env_valid _ _ _ he hm)
  · exact level_factoryResultLogger st v
  · exact levelOf_factoryResultState st v

theorem env_level_used_when_config_fails_witness :
    ∃ l st', bodywork_log_factory none ConfigOutcome.failure stEnvDebug
        = (Except.ok l, st') ∧ l.level = 10 ∧ levelOf st' = 10 :=
  env_level_used_when_config_fails stEnvDebug "DEBUG" 10 (by decide) (by decide)

/-- C5: with no explicit `log_level`, a failing config-file step, and an
environment variable that is unset or set to an unrecognized name, the
factory succeeds and the resolved threshold is the built-in default `INFO`:
an invalid environment value is recovered exactly like an unset one. -/
theorem default_level_when_no_source (st : ProcState)
    (he : alookup DEFAULT_LOG_LEVEL_ENV_VAR st.env = none ∨
      ∃ s, alookup DEFAULT_LOG_LEVEL_ENV_VAR st.env = some s ∧
        alookup s log_level_mapping = none) :
    ∃ l st', bodywork_log_factory none ConfigOutcome.failure st
        = (Except.ok l, st') ∧ l.level = INFO ∧ levelOf st' = INFO := by
  refine ⟨factoryResultLogger st INFO, factoryResultState st INFO, ?_, ?_, ?_⟩
  · refine factory_ok_of_resolve _ _ _ _ ?_
    rcases he with he | ⟨s, he, hm⟩
    · exact resolveLevel_env_unset _ he
    · exact resolveLevel_env_invalid _ _ he hm
  · exact level_factoryResultLogger st INFO
  · exact levelOf_factoryResultState st INFO

theorem default_level_when_no_source_witness :
    ∃ l st', bodywork_log_factory none ConfigOutcome.failure st0
        = (Except.ok l, st') ∧ l.level = INFO ∧ levelOf st' = INFO :=
  default_level_when_no_source st0 (Or.inl (by decide))

/-- C6: with no explicit `log_level`, no config-file failure escapes the
factory: whatever the outcome of the config-load step and whatever the
process state, the call completes normally (no exception in the result). -/
theorem config_failure_never_propagates (c : ConfigOutcome) (st : ProcState) :
    ∃ l st', bodywork_log_factory none c st = (Except.ok l, st') := by
  obtain ⟨v, hv⟩ := resolveLevel_none_ok c st.env
  exact ⟨factoryResultLogger st v, factoryResultState st v,
    factory_ok_of_resolve _ _ _ _ hv⟩

theorem factory_error_state (a : Option String) (c : ConfigOutcome) (st : ProcState)
    (e : PyError) (st' : ProcState)
    (h : bodywork_log_factory a c st = (Except.error e, st')) :
    levelOf st' = levelOf st ∧ handlersOf st' = handlersOf st := by
  cases hres : resolveLevel a c (getLogger "bodywork" st).2.env with
  | ok v => simp [bodywork_log_factory, hres] at h
  | error e0 =>
      simp only [bodywork_log_factory, hres] at h
      rw [Prod.mk.injEq] at h
      obtain ⟨he, hst⟩ := h
      subst hst
      exact ⟨levelOf_getLogger st, handlersOf_getLogger st⟩

theorem factory_ok_handlers (a : Option String) (c : ConfigOutcome) (st : ProcState)
    (l : Logger) (st' : ProcState)
    (h : bodywork_log_factory a c st = (Except.ok l, st')) :
    handlersOf st' = (if handlersOf st = [] then [the_rich_handler] else handlersOf st) := by
  cases hres : resolveLevel a c (getLogger "bodywork" st).2.env with
  | error e => simp [bodywork_log_factory, hres] at h
  | ok v =>
      simp only [bodywork_log_factory, hres] at h
      rw [Prod.mk.injEq] at h
      obtain ⟨hl, hst⟩ := h
      subst hst
      rw [handlersOf_setLogger _ _ ⟨_, getLogger_lookup "bodywork" st⟩]
      rw [addHandlerIfNone_handlers]
      simp [getLogger_handlers]

/-- C7 counterexample: two consecutive calls in a fresh process, both with an
explicit level that is not a known severity name, both raise before reaching
the handler step; after the two calls the `bodywork` logger has zero
attached handlers, not exactly one. -/
theorem two_failing_calls_leave_no_handler :
    (handlersOf (bodywork_log_factory (some "TRACE") ConfigOutcome.failure
        (bodywork_log_factory (some "TRACE") ConfigOutcome.failure st0).2).2).length = 0 ∧
    ¬ (handlersOf (bodywork_log_factory (some "TRACE") ConfigOutcome.failure
        (bodywork_log_factory (some "TRACE") ConfigOutcome.failure st0).2).2).length = 1 := by
  decide

/-- C7 (amended): calling the factory twice in the same process (starting
with no handler on the logger, as at process start), with any arguments and
in any order, leaves exactly one attached output handler provided at least
one of the two calls completes without raising; in particular a second
successful call attaches no additional handler. -/
theorem two_calls_one_handler (a1 a2 : Option String) (c1 c2 : ConfigOutcome)
    (st : ProcState) (hstart : handlersOf st = [])
    (hok : (∃ l, (bodywork_log_factory a1 c1 st).1 = Except.ok l) ∨
      (∃ l, (bodywork_log_factory a2 c2 (bodywork_log_factory a1 c1 st).2).1
        = Except.ok l)) :
    (handlersOf (bodywork_log_factory a2 c2 (bodywork_log_factory a1 c1 st).2).2).length
      = 1 := by
  cases h1 : bodywork_log_factory a1 c1 st with
  | mk res1 st1 =>
      dsimp only at hok ⊢
      cases h2 : bodywork_log_factory a2 c2 st1 with
      | mk res2 st2 =>
          dsimp only at hok ⊢
          cases res1 with
          | ok l1 =>
              have hh1 : handlersOf st1 = [the_rich_handler] := by
                rw [factory_ok_handlers a1 c1 st l1 st1 h1, if_pos hstart]
              cases res2 with
              | ok l2 =>
                  have hh2 := factory_ok_handlers a2 c2 st1 l2 st2 h2
                  rw [hh1] at hh2
                  simp at hh2
                  rw [hh2]
                  rfl
              | error e2 =>
                  have hh2 := (factory_error_state a2 c2 st1 e2 st2 h2).2
                  rw [hh2, hh1]
                  rfl
          | error e1 =>
              have hh1 : handlersOf st1 = [] := by
                rw [(factory_error_state a1 c1 st e1 st1 h1).2, hstart]
              rcases hok with ⟨l, hl⟩ | ⟨l, hl⟩
              · simp [h1] at hl
              · cases res2 with
                | ok l2 =>
                    have hh2 := factory_ok_handlers a2 c2 st1 l2 st2 h2
                    rw [hh1] at hh2
                    simp at hh2
                    rw [hh2]
                    rfl
                | error e2 => simp [h1, h2] at hl

theorem two_calls_one_handler_witness :
    (handlersOf (bodywork_log_factory none ConfigOutcome.failure
      (bodywork_log_factory none ConfigOutcome.failure st0).2).2).length = 1 :=
  two_calls_one_handler none none ConfigOutcome.failure ConfigOutcome.failure st0
    (by decide) (Or.inl ⟨factoryResultLogger st0 INFO, by rfl⟩)

/-- C8 counterexample: a call with an unrecognized explicit level in a fresh
process finds zero attached handlers at call time, yet raises before
constructing the handler: it attaches no `OutputHandler` at all. -/
theorem failing_call_attaches_no_handler :
    handlersOf st0 = [] ∧
    (handlersOf (bodywork_log_factory (some "VERBOSE") ConfigOutcome.failure st0).2).length
      = 0 := by
  decide

/-- C8 (amended): every call that completes without raising attaches, when
the `bodywork` logger had zero handlers at call time, exactly one handler,
configured with path display off, the null highlighter, repeated-timestamp
suppression disabled (every record gets a timestamp), traceback rendering
enabled, and the fixed timestamp format; when a handler is already attached,
none is added. -/
theorem successful_call_handler_config (a : Option String) (c : ConfigOutcome)
    (st : ProcState) (l : Logger) (st' : ProcState)
    (h : bodywork_log_factory a c st = (Except.ok l, st')) :
    (handlersOf st = [] → handlersOf st' =
      [{ show_path := false, highlighter := Highlighter.nullHighlighter,
         omit_repeated_times := false, rich_tracebacks := true,
         log_time_format := LOG_TIME_FORMAT }]) ∧
    (handlersOf st ≠ [] → handlersOf st' = handlersOf st) := by
  have hh := factory_ok_handlers a c st l st' h
  constructor
  · intro h0
    rw [hh, if_pos h0]
    rfl
  · intro h0
    rw [hh, if_neg h0]

theorem successful_call_handler_config_witness :
    handlersOf (factoryResultState st0 INFO) =
      [{ show_path := false, highlighter := Highlighter.nullHighlighter,
         omit_repeated_times := false, rich_tracebacks := true,
         log_time_format := LOG_TIME_FORMAT }] :=
  (successful_call_handler_config none ConfigOutcome.failure st0
    (factoryResultLogger st0 INFO) (factoryResultState st0 INFO) (by rfl)).1 (by decide)

/-- C9: every factory call that returns hands back the process-wide logger
registered under the fixed name `bodywork`: whatever the arguments, the
config-file outcome and the environment, the returned logger is named
`bodywork` (for any well-formed registry) and is exactly the registry entry
of that name in the post-call state — so all calls yield the one singleton. -/
theorem returns_singleton_bodywork_logger (a : Option String) (c : ConfigOutcome)
    (st : ProcState) (l : Logger) (st' : ProcState) (hwf : WF st)
    (h : bodywork_log_factory a c st = (Except.ok l, st')) :
    l.name = "bodywork" ∧ alookup "bodywork" st'.loggers = some l := by
  cases hres : resolveLevel a c (getLogger "bodywork" st).2.env with
  | error e => simp [bodywork_log_factory, hres] at h
  | ok v =>
      simp only [bodywork_log_factory, hres] at h
      rw [Prod.mk.injEq] at h
      obtain ⟨hl, hst⟩ := h
      obtain rfl : addHandlerIfNone { (getLogger "bodywork" st).1 with level := v } = l :=
        Except.ok.inj hl
      subst hst
      constructor
      · rw [addHandlerIfNone_name]
        exact getLogger_name st hwf
      · exact alookup_setLogger _ _ ⟨_, getLogger_lookup "bodywork" st⟩

theorem returns_singleton_bodywork_logger_witness :
    (factoryResultLogger st0 INFO).name = "bodywork" ∧
    alookup "bodywork" (factoryResultState st0 INFO).loggers
      = some (factoryResultLogger st0 INFO) :=
  returns_singleton_bodywork_logger none ConfigOutcome.failure st0
    (factoryResultLogger st0 INFO) (factoryResultState st0 INFO)
    (by intro p hp; simp [st0] at hp) (by rfl)

/-- C10: a factory call with an unrecognized explicit `log_level` raises
before any mutation of the logger: the severity threshold and the handler
list of the `bodywork` logger after the failing call are exactly what they
were before it (the failing call is atomic in that respect). -/
theorem failing_call_is_atomic (name : String) (c : ConfigOutcome) (st : ProcState)
    (e : PyError) (st' : ProcState)
    (h : bodywork_log_factory (some name) c st = (Except.error e, st')) :
    levelOf st' = levelOf st ∧ handlersOf st' = handlersOf st :=
  factory_error_state (some name) c st e st' h

theorem failing_call_is_atomic_witness :
    levelOf (bodywork_log_factory (some "FATAL") ConfigOutcome.failure stEnvDebug).2
      = levelOf stEnvDebug ∧
    handlersOf (bodywork_log_factory (some "FATAL") ConfigOutcome.failure stEnvDebug).2
      = handlersOf stEnvDebug :=
  failing_call_is_atomic "FATAL" ConfigOutcome.failure stEnvDebug
    (PyError.keyError "FATAL")
    (bodywork_log_factory (some "FATAL") ConfigOutcome.failure stEnvDebug).2 (by rfl)

end BodyworkLogs
